import Mathlib

/-!
Shallow embedding of the sensor-to-gesture pipeline of the glove_system
repository (ESP32 C sources under src/main), together with proofs of the
frozen claims about it.

Modelling conventions:
* C `float` values are modelled as exact rationals (`ℚ`).
* C unsigned integers (`uint16_t`, `uint32_t`, `size_t`) are modelled as `Nat`;
  no modelled code path depends on wraparound (timestamps are monotone and
  small in every scenario considered, sizes stay below capacity).
* Fixed C arrays (`float angles[10]`, …) are modelled as total functions
  `Nat → _`; every access performed by the modelled code is below the C bound.
* A heap-allocated camera frame (`uint8_t *frame_buffer`) is modelled as
  `Option (List Nat)`: `none` is the NULL pointer, `some bs` an allocation
  holding the byte list `bs`.  `free` + NULL-ing a slot is modelled by
  storing `none`; `buffer_push` additionally reports the released bytes so
  eviction behaviour is observable.
* `malloc` success/failure for the frame deep copy is nondeterministic in C;
  it is modelled by an explicit `allocOk : Bool` oracle argument.
* C out-parameters that a function may leave untouched are modelled by
  passing the caller's previous value in and returning it unchanged on the
  corresponding paths.
* Non-null pointer arguments are implicit: a Lean value always denotes a
  valid object, so the C `== NULL` argument checks have no counterpart,
  except for `buffer->buffer == NULL`, which is modelled by the backing
  list being empty.
-/

/-- `esp_err_t` result codes used by the modelled sources. -/
inductive esp_err_t where
  | ESP_OK
  | ESP_ERR_INVALID_ARG
  | ESP_ERR_NO_MEM
  | ESP_ERR_NOT_FOUND
  | ESP_ERR_INVALID_STATE
  | ESP_ERR_NOT_SUPPORTED
deriving DecidableEq, Repr

open esp_err_t

/-- src/main/util/buffer.h: `flex_sensor_data_t` (10 joints). -/
structure flex_sensor_data_t where
  raw_values : Nat → Nat
  angles : Nat → ℚ
  timestamp : Nat

/-- src/main/util/buffer.h: `imu_data_t` (3-axis each). -/
structure imu_data_t where
  accel : Nat → ℚ
  gyro : Nat → ℚ
  orientation : Nat → ℚ
  timestamp : Nat

/-- src/main/util/buffer.h: `camera_frame_t`; the heap pointer plus its
allocation contents are modelled by `frame_buffer : Option (List Nat)`. -/
structure camera_frame_t where
  frame_buffer : Option (List Nat)
  buffer_size : Nat
  width : Nat
  height : Nat
  timestamp : Nat

/-- src/main/util/buffer.h: `touch_sensor_data_t` (5 channels). -/
structure touch_sensor_data_t where
  touch_status : Nat → Bool
  timestamp : Nat

/-- src/main/util/buffer.h: `sensor_data_t`, the composite snapshot. -/
structure sensor_data_t where
  flex_data : flex_sensor_data_t
  imu_data : imu_data_t
  camera_data : camera_frame_t
  touch_data : touch_sensor_data_t
  flex_data_valid : Bool
  imu_data_valid : Bool
  camera_data_valid : Bool
  touch_data_valid : Bool
  sequence_number : Nat
  timestamp : Nat

/-- All-zero composite snapshot (the value of zero-initialized memory). -/
def zero_sensor_data : sensor_data_t :=
  { flex_data := { raw_values := fun _ => 0, angles := fun _ => 0, timestamp := 0 }
    imu_data := { accel := fun _ => 0, gyro := fun _ => 0, orientation := fun _ => 0, timestamp := 0 }
    camera_data := { frame_buffer := none, buffer_size := 0, width := 0, height := 0, timestamp := 0 }
    touch_data := { touch_status := fun _ => false, timestamp := 0 }
    flex_data_valid := false
    imu_data_valid := false
    camera_data_valid := false
    touch_data_valid := false
    sequence_number := 0
    timestamp := 0 }

instance : Inhabited sensor_data_t := ⟨zero_sensor_data⟩

/-- src/main/util/buffer.h: `sensor_data_buffer_t`.  The backing array
`sensor_data_t *buffer` of `capacity` slots is modelled as a list of that
length (empty list = NULL pointer). -/
structure sensor_data_buffer_t where
  buffer : List sensor_data_t
  capacity : Nat
  size : Nat
  head : Nat
  tail : Nat

/-- src/main/util/buffer.c: `buffer_init` (lines 8-25).  The C backing array
comes from `malloc` uninitialized; it is modelled as all-zero slots, which no
reachable `buffer_push`/`buffer_pop` behaviour can distinguish (only occupied
slots are read).  Allocation success is assumed (the failure path only
returns `ESP_ERR_NO_MEM` and is irrelevant to the claims). -/
def buffer_init (capacity : Nat) : esp_err_t × sensor_data_buffer_t :=
  if capacity = 0 then
    (ESP_ERR_INVALID_ARG, { buffer := [], capacity := 0, size := 0, head := 0, tail := 0 })
  else
    (ESP_OK,
     { buffer := List.replicate capacity zero_sensor_data
       capacity := capacity, size := 0, head := 0, tail := 0 })

/-- src/main/util/buffer.c: `buffer_is_empty` (lines 115-120). -/
def buffer_is_empty (b : sensor_data_buffer_t) : Bool :=
  b.size == 0

/-- src/main/util/buffer.c: `buffer_is_full` (lines 122-127). -/
def buffer_is_full (b : sensor_data_buffer_t) : Bool :=
  b.size == b.capacity

/-- src/main/util/buffer.c: `buffer_get_size` (lines 129-134). -/
def buffer_get_size (b : sensor_data_buffer_t) : Nat :=
  b.size

/-- The entry actually stored by `buffer_push` (lines 68-81 of buffer.c):
`memcpy` of the whole struct, followed by the camera-frame deep copy.
When the source carries a valid non-NULL frame of positive size:
on `malloc` success the slot points at a fresh allocation holding the first
`buffer_size` bytes of the source frame; on failure the slot's pointer is the
NULL result of `malloc` and `camera_data_valid` is cleared. -/
def push_copied (allocOk : Bool) (data : sensor_data_t) : sensor_data_t :=
  if data.camera_data_valid = true ∧ data.camera_data.frame_buffer.isSome = true ∧
      0 < data.camera_data.buffer_size then
    if allocOk then
      { data with camera_data :=
          { data.camera_data with
            frame_buffer := some ((data.camera_data.frame_buffer.getD []).take
              data.camera_data.buffer_size) } }
    else
      { data with
        camera_data := { data.camera_data with frame_buffer := none }
        camera_data_valid := false }
  else
    data

/-- A snapshot with its camera frame pointer cleared (NULL-ed), as done by
eviction in `buffer_push` and ownership transfer in `buffer_pop`. -/
def clear_frame (d : sensor_data_t) : sensor_data_t :=
  { d with camera_data := { d.camera_data with frame_buffer := none } }

/-- src/main/util/buffer.c: `buffer_push` (lines 48-88).  The third component
of the result is the list of bytes released by the eviction `free` (lines
56-60), `none` when nothing was freed, making the release observable. -/
def buffer_push (allocOk : Bool) (b : sensor_data_buffer_t) (data : sensor_data_t) :
    esp_err_t × sensor_data_buffer_t × Option (List Nat) :=
  if b.buffer.isEmpty then (ESP_ERR_INVALID_ARG, b, none)
  else
    -- lines 53-65: when full, free the oldest slot's frame (recorded in
    -- `freed`), NULL its pointer, advance the tail and decrement the size
    let freed : Option (List Nat) :=
      if buffer_is_full b then
        let oldest := b.buffer.getD b.tail zero_sensor_data
        if oldest.camera_data_valid = true ∧ oldest.camera_data.frame_buffer.isSome = true then
          oldest.camera_data.frame_buffer
        else none
      else none
    let b1 : sensor_data_buffer_t :=
      if buffer_is_full b then
        { b with
            buffer := b.buffer.set b.tail (clear_frame (b.buffer.getD b.tail zero_sensor_data))
            tail := (b.tail + 1) % b.capacity
            size := b.size - 1 }
      else b
    -- lines 67-87: copy the entry (with frame deep copy) into the head slot,
    -- advance the head and increment the size
    (ESP_OK,
     { b1 with
        buffer := b1.buffer.set b1.head (push_copied allocOk data)
        head := (b1.head + 1) % b1.capacity
        size := b1.size + 1 }, freed)

/-- src/main/util/buffer.c: `buffer_pop` (lines 90-113).  `data0` is the
caller's out-parameter before the call; it is returned unchanged on the
error paths. -/
def buffer_pop (b : sensor_data_buffer_t) (data0 : sensor_data_t) :
    esp_err_t × sensor_data_buffer_t × sensor_data_t :=
  if b.buffer.isEmpty then (ESP_ERR_INVALID_ARG, b, data0)
  else if buffer_is_empty b then (ESP_ERR_NOT_FOUND, b, data0)
  else
    -- lines 99-106: copy the tail entry out; when its camera validity flag is
    -- set, ownership of the frame transfers to the caller and the slot's
    -- pointer is NULL-ed (the copy keeps the frame either way)
    let slot := b.buffer.getD b.tail zero_sensor_data
    let storage :=
      if slot.camera_data_valid = true then b.buffer.set b.tail (clear_frame slot)
      else b.buffer
    (ESP_OK,
     { b with
        buffer := storage
        tail := (b.tail + 1) % b.capacity
        size := b.size - 1 },
     slot)

/-- Iterated `buffer_push`: each element carries its own allocation oracle. -/
def pushSeq (ds : List (Bool × sensor_data_t)) (b : sensor_data_buffer_t) :
    sensor_data_buffer_t :=
  ds.foldl (fun acc p => (buffer_push p.1 acc p.2).2.1) b

/-- Iterated `buffer_pop`, collecting the popped snapshots in order. -/
def popN : Nat → sensor_data_buffer_t → sensor_data_buffer_t × List sensor_data_t
  | 0, b => (b, [])
  | n + 1, b =>
    let r := buffer_pop b zero_sensor_data
    let rest := popN n r.2.1
    (rest.1, r.2.2 :: rest.2)

/-- Well-formedness of a circular buffer state: every state reachable from a
successful `buffer_init` by pushes and pops satisfies it. -/
def BufWF (b : sensor_data_buffer_t) : Prop :=
  b.buffer.length = b.capacity ∧ b.size ≤ b.capacity ∧ b.tail < b.capacity ∧
    b.head = (b.tail + b.size) % b.capacity ∧ 0 < b.capacity

instance (b : sensor_data_buffer_t) : Decidable (BufWF b) :=
  inferInstanceAs (Decidable (b.buffer.length = b.capacity ∧ b.size ≤ b.capacity ∧
    b.tail < b.capacity ∧ b.head = (b.tail + b.size) % b.capacity ∧ 0 < b.capacity))

/-- The occupied slots of a circular buffer, oldest first. -/
def bufList (b : sensor_data_buffer_t) : List sensor_data_t :=
  (List.range b.size).map
    (fun i => b.buffer.getD ((b.tail + i) % b.capacity) zero_sensor_data)

/-! ### Helper lemmas about the circular-buffer representation -/

lemma getD_set_ne {α : Type} (l : List α) {i j : Nat} (a : α) (d : α) (h : i ≠ j) :
    (l.set i a).getD j d = l.getD j d := by
  simp [List.getD_eq_getElem?_getD, List.getElem?_set_ne h]

lemma getD_set_self {α : Type} (l : List α) {i : Nat} (a : α) (d : α) (h : i < l.length) :
    (l.set i a).getD i d = a := by
  simp [List.getD_eq_getElem?_getD, List.getElem?_set_self, h]

lemma mod_add_cancel {cap t i j : Nat} (hi : i < cap) (hj : j < cap)
    (h : (t + i) % cap = (t + j) % cap) : i = j := by
  have h2 : i % cap = j % cap := Nat.ModEq.add_left_cancel' t h
  rwa [Nat.mod_eq_of_lt hi, Nat.mod_eq_of_lt hj] at h2

lemma bufList_length (b : sensor_data_buffer_t) : (bufList b).length = b.size := by
  simp [bufList]

lemma buffer_nonempty_of_wf {b : sensor_data_buffer_t} (hwf : BufWF b) :
    b.buffer.isEmpty = false := by
  obtain ⟨hlen, -, -, -, hcap⟩ := hwf
  rcases h : b.buffer with _ | ⟨x, xs⟩
  · rw [h] at hlen; simp at hlen; omega
  · rfl

lemma push_copied_seq (ok : Bool) (d : sensor_data_t) :
    (push_copied ok d).sequence_number = d.sequence_number := by
  unfold push_copied
  split
  · split <;> rfl
  · rfl

lemma bufwf_init {cap : Nat} (h : 0 < cap) : BufWF (buffer_init cap).2 := by
  have hne : cap ≠ 0 := Nat.pos_iff_ne_zero.mp h
  simp [buffer_init, hne, BufWF, h]

lemma bufList_init {cap : Nat} : bufList (buffer_init cap).2 = [] := by
  unfold buffer_init
  split <;> simp [bufList]

lemma buffer_push_capacity (ok : Bool) (b : sensor_data_buffer_t) (d : sensor_data_t) :
    (buffer_push ok b d).2.1.capacity = b.capacity := by
  unfold buffer_push
  split
  · rfl
  · simp only
    split <;> rfl

/-- `buffer_push` on a well-formed non-full buffer: no eviction, the deep
copy is appended at the head slot. -/
lemma buffer_push_not_full {b : sensor_data_buffer_t} (hwf : BufWF b)
    (hnf : b.size < b.capacity) (ok : Bool) (d : sensor_data_t) :
    buffer_push ok b d =
      (ESP_OK,
       { b with
          buffer := b.buffer.set b.head (push_copied ok d)
          head := (b.head + 1) % b.capacity
          size := b.size + 1 }, none) := by
  have hne := buffer_nonempty_of_wf hwf
  have hfull : buffer_is_full b = false := by
    simp [buffer_is_full]; omega
  unfold buffer_push
  rw [hne, hfull]
  simp

lemma bufwf_push_not_full {b : sensor_data_buffer_t} (hwf : BufWF b)
    (hnf : b.size < b.capacity) (ok : Bool) (d : sensor_data_t) :
    BufWF (buffer_push ok b d).2.1 := by
  obtain ⟨hlen, hsz, htl, hhd, hcap⟩ := hwf
  rw [buffer_push_not_full ⟨hlen, hsz, htl, hhd, hcap⟩ hnf ok d]
  refine ⟨by simp [hlen], by simp only; omega, htl, ?_, hcap⟩
  simp only [hhd, Nat.mod_add_mod]
  ring_nf

lemma bufList_push_not_full {b : sensor_data_buffer_t} (hwf : BufWF b)
    (hnf : b.size < b.capacity) (ok : Bool) (d : sensor_data_t) :
    bufList (buffer_push ok b d).2.1 = bufList b ++ [push_copied ok d] := by
  obtain ⟨hlen, hsz, htl, hhd, hcap⟩ := hwf
  rw [buffer_push_not_full ⟨hlen, hsz, htl, hhd, hcap⟩ hnf ok d]
  simp only [bufList]
  rw [List.range_succ, List.map_append]
  congr 1
  · apply List.map_congr_left
    intro i hi
    simp only [List.mem_range] at hi
    apply getD_set_ne
    intro hEq
    rw [hhd] at hEq
    have : b.size = i := mod_add_cancel hnf (lt_trans hi hnf) hEq
    omega
  · simp only [List.map_cons, List.map_nil]
    congr 1
    rw [← hhd]
    exact getD_set_self _ _ _ (by rw [hlen]; rw [hhd]; exact Nat.mod_lt _ hcap)

/-- `buffer_pop` on a well-formed empty buffer fails with `NOT_FOUND` and
changes nothing. -/
lemma buffer_pop_of_empty {b : sensor_data_buffer_t} (hwf : BufWF b)
    (h : b.size = 0) (d0 : sensor_data_t) :
    buffer_pop b d0 = (ESP_ERR_NOT_FOUND, b, d0) := by
  have hne := buffer_nonempty_of_wf hwf
  have hemp : buffer_is_empty b = true := by simp [buffer_is_empty, h]
  unfold buffer_pop
  rw [hne, hemp]
  simp

/-- `buffer_pop` on a well-formed non-empty buffer succeeds, returns the
oldest entry, decrements the size and drops that entry from the contents. -/
lemma buffer_pop_of_nonempty {b : sensor_data_buffer_t} (hwf : BufWF b)
    (hpos : 0 < b.size) (d0 : sensor_data_t) :
    (buffer_pop b d0).1 = ESP_OK ∧
    (buffer_pop b d0).2.2 = (bufList b).getD 0 zero_sensor_data ∧
    BufWF (buffer_pop b d0).2.1 ∧
    bufList (buffer_pop b d0).2.1 = (bufList b).drop 1 ∧
    (buffer_pop b d0).2.1.size = b.size - 1 ∧
    (buffer_pop b d0).2.1.capacity = b.capacity := by
  obtain ⟨hlen, hsz, htl, hhd, hcap⟩ := hwf
  have hne := buffer_nonempty_of_wf ⟨hlen, hsz, htl, hhd, hcap⟩
  have hemp : buffer_is_empty b = false := by simp [buffer_is_empty]; omega
  have htl' : b.tail % b.capacity = b.tail := Nat.mod_eq_of_lt htl
  obtain ⟨k, hk⟩ : ∃ k, b.size = k + 1 := ⟨b.size - 1, by omega⟩
  have hpop : ∃ l : List sensor_data_t, l.length = b.buffer.length ∧
      (∀ j, j ≠ b.tail → l.getD j zero_sensor_data = b.buffer.getD j zero_sensor_data) ∧
      buffer_pop b d0 =
        (ESP_OK,
         { buffer := l, capacity := b.capacity, size := b.size - 1, head := b.head,
           tail := (b.tail + 1) % b.capacity },
         b.buffer.getD b.tail zero_sensor_data) := by
    refine ⟨if (b.buffer.getD b.tail zero_sensor_data).camera_data_valid = true
        then b.buffer.set b.tail (clear_frame (b.buffer.getD b.tail zero_sensor_data))
        else b.buffer, ?_, ?_, ?_⟩
    · split <;> simp
    · intro j hj
      split
      · exact getD_set_ne _ _ _ (fun h => hj h.symm)
      · rfl
    · unfold buffer_pop
      rw [hne, hemp]
      simp only [Bool.false_eq_true, if_false]
  obtain ⟨l, hllen, hlget, hpop⟩ := hpop
  rw [hpop]
  have hout : b.buffer.getD b.tail zero_sensor_data = (bufList b).getD 0 zero_sensor_data := by
    simp only [bufList, hk]
    rw [List.range_succ_eq_map]
    simp [htl']
  refine ⟨rfl, hout, ?_, ?_, rfl, rfl⟩
  · refine ⟨by simp [hllen, hlen], by simp only; omega, Nat.mod_lt _ hcap, ?_, hcap⟩
    simp only [hhd, Nat.mod_add_mod]
    congr 1
    omega
  · have hdrop : (bufList b).drop 1 =
        (List.range k).map
          (fun i => b.buffer.getD ((b.tail + (i + 1)) % b.capacity) zero_sensor_data) := by
      simp only [bufList, hk]
      rw [List.range_succ_eq_map]
      simp only [List.map_cons, List.drop_succ_cons, List.drop_zero, List.map_map]
      apply List.map_congr_left
      intro i _
      simp [Function.comp, Nat.succ_eq_add_one]
    rw [hdrop]
    simp only [bufList, hk, Nat.add_sub_cancel]
    apply List.map_congr_left
    intro i hi
    simp only [List.mem_range] at hi
    rw [Nat.mod_add_mod]
    have harith : b.tail + 1 + i = b.tail + (i + 1) := by omega
    rw [harith]
    apply hlget
    intro hEq
    have h1 : i + 1 < b.capacity := by omega
    have hEq' : (b.tail + (i + 1)) % b.capacity = (b.tail + 0) % b.capacity := by
      rw [hEq]
      simpa using htl'.symm
    have := mod_add_cancel h1 hcap hEq'
    omega

/-- `buffer_push` on a well-formed full buffer: the oldest slot's frame is
released (reported in the third component) and its pointer NULL-ed, the tail
advances and the size is decremented, and only then is the new entry written
at the head slot. -/
lemma buffer_push_full {b : sensor_data_buffer_t} (hwf : BufWF b)
    (hf : b.size = b.capacity) (ok : Bool) (d : sensor_data_t) :
    buffer_push ok b d =
      (ESP_OK,
       { buffer := (b.buffer.set b.tail
            (clear_frame (b.buffer.getD b.tail zero_sensor_data))).set b.head
            (push_copied ok d)
         capacity := b.capacity
         size := b.size - 1 + 1
         head := (b.head + 1) % b.capacity
         tail := (b.tail + 1) % b.capacity },
       if (b.buffer.getD b.tail zero_sensor_data).camera_data_valid = true ∧
           (b.buffer.getD b.tail zero_sensor_data).camera_data.frame_buffer.isSome = true
       then (b.buffer.getD b.tail zero_sensor_data).camera_data.frame_buffer
       else none) := by
  have hne := buffer_nonempty_of_wf hwf
  have hfull : buffer_is_full b = true := by simp [buffer_is_full, hf]
  unfold buffer_push
  rw [hne, hfull]
  simp only [Bool.false_eq_true, if_false, if_true]

lemma bufwf_push {b : sensor_data_buffer_t} (hwf : BufWF b) (ok : Bool) (d : sensor_data_t) :
    BufWF (buffer_push ok b d).2.1 := by
  obtain hlt | heq := lt_or_eq_of_le hwf.2.1
  · exact bufwf_push_not_full hwf hlt ok d
  · obtain ⟨hlen, hsz, htl, hhd, hcap⟩ := hwf
    rw [buffer_push_full ⟨hlen, hsz, htl, hhd, hcap⟩ heq ok d]
    refine ⟨by simp [hlen], by simp only; omega, Nat.mod_lt _ hcap, ?_, hcap⟩
    simp only [hhd, Nat.mod_add_mod, heq]
    congr 1
    omega

lemma pushSeq_nil (b : sensor_data_buffer_t) : pushSeq [] b = b := rfl

lemma pushSeq_cons (p : Bool × sensor_data_t) (ds : List (Bool × sensor_data_t))
    (b : sensor_data_buffer_t) :
    pushSeq (p :: ds) b = pushSeq ds (buffer_push p.1 b p.2).2.1 := rfl

lemma bufwf_pushSeq (ds : List (Bool × sensor_data_t)) :
    ∀ {b : sensor_data_buffer_t}, BufWF b → BufWF (pushSeq ds b) := by
  induction ds with
  | nil => intro b hwf; exact hwf
  | cons p ds ih =>
    intro b hwf
    rw [pushSeq_cons]
    exact ih (bufwf_push hwf p.1 p.2)

lemma pushSeq_capacity (ds : List (Bool × sensor_data_t)) :
    ∀ b : sensor_data_buffer_t, (pushSeq ds b).capacity = b.capacity := by
  induction ds with
  | nil => intro b; rfl
  | cons p ds ih =>
    intro b
    rw [pushSeq_cons, ih, buffer_push_capacity]

lemma buffer_init_size {cap : Nat} : (buffer_init cap).2.size = 0 := by
  unfold buffer_init
  split <;> rfl

lemma buffer_init_capacity {cap : Nat} (h : 0 < cap) : (buffer_init cap).2.capacity = cap := by
  have : cap ≠ 0 := Nat.pos_iff_ne_zero.mp h
  simp [buffer_init, this]

lemma bufList_pushSeq (ds : List (Bool × sensor_data_t)) :
    ∀ {b : sensor_data_buffer_t}, BufWF b → b.size + ds.length ≤ b.capacity →
      bufList (pushSeq ds b) = bufList b ++ ds.map (fun p => push_copied p.1 p.2) := by
  induction ds with
  | nil => intro b _ _; simp [pushSeq_nil]
  | cons p ds ih =>
    intro b hwf hle
    have hnf : b.size < b.capacity := by
      simp only [List.length_cons] at hle
      omega
    have heq := buffer_push_not_full hwf hnf p.1 p.2
    have hwf' := bufwf_push_not_full hwf hnf p.1 p.2
    rw [pushSeq_cons]
    rw [ih hwf' (by rw [heq]; simp only [List.length_cons] at hle; simp only; omega)]
    rw [bufList_push_not_full hwf hnf p.1 p.2]
    simp

lemma popN_yields {q : List sensor_data_t} :
    ∀ {b : sensor_data_buffer_t}, BufWF b → bufList b = q → (popN q.length b).2 = q := by
  induction q with
  | nil => intro b _ _; rfl
  | cons d q ih =>
    intro b hwf hq
    have hpos : 0 < b.size := by
      have hL := bufList_length b
      rw [hq] at hL
      simp only [List.length_cons] at hL
      omega
    obtain ⟨-, hout, hwf', hlist, -, -⟩ := buffer_pop_of_nonempty hwf hpos zero_sensor_data
    simp only [List.length_cons, popN]
    congr 1
    · rw [hout, hq]
      rfl
    · exact ih hwf' (by rw [hlist, hq]; rfl)

/-- After a pop whose entry had a set camera validity flag, the popped slot
inside the storage no longer holds the frame pointer. -/
lemma buffer_pop_clears_slot {b : sensor_data_buffer_t} (hwf : BufWF b)
    (hpos : 0 < b.size)
    (hv : (b.buffer.getD b.tail zero_sensor_data).camera_data_valid = true)
    (d0 : sensor_data_t) :
    (buffer_pop b d0).2.1.buffer.getD b.tail zero_sensor_data =
      clear_frame (b.buffer.getD b.tail zero_sensor_data) := by
  obtain ⟨hlen, hsz, htl, hhd, hcap⟩ := hwf
  have hne := buffer_nonempty_of_wf ⟨hlen, hsz, htl, hhd, hcap⟩
  have hemp : buffer_is_empty b = false := by simp [buffer_is_empty]; omega
  unfold buffer_pop
  rw [hne, hemp]
  simp only [Bool.false_eq_true, if_false]
  rw [if_pos hv]
  exact getD_set_self _ _ _ (by rw [hlen]; exact htl)

/-- C1: for every sequence of `buffer_push` calls on an initialized history
buffer, the `size` field never exceeds the `capacity` field; a push onto a
full buffer releases the oldest (tail) slot's frame buffer — exactly when
that slot's camera validity flag is set and its pointer is non-NULL — and
advances the tail, before the new entry is written at the head slot; the
backing storage never grows. -/
theorem buffer_push_bounded (cap : Nat) (hcap : 0 < cap)
    (ds : List (Bool × sensor_data_t)) :
    let b := pushSeq ds (buffer_init cap).2
    (b.size ≤ b.capacity ∧ b.buffer.length = cap) ∧
    (∀ ok d, buffer_is_full b = true →
      (buffer_push ok b d).1 = ESP_OK ∧
      (buffer_push ok b d).2.2 =
        (if (b.buffer.getD b.tail zero_sensor_data).camera_data_valid = true ∧
            (b.buffer.getD b.tail zero_sensor_data).camera_data.frame_buffer.isSome = true
         then (b.buffer.getD b.tail zero_sensor_data).camera_data.frame_buffer
         else none) ∧
      (buffer_push ok b d).2.1.tail = (b.tail + 1) % b.capacity ∧
      (buffer_push ok b d).2.1.buffer.getD b.head zero_sensor_data = push_copied ok d ∧
      (buffer_push ok b d).2.1.buffer.length = cap ∧
      (buffer_push ok b d).2.1.size ≤ cap) := by
  intro b
  have hwf : BufWF b := bufwf_pushSeq ds (bufwf_init hcap)
  have hcapeq : b.capacity = cap := by
    show (pushSeq ds (buffer_init cap).2).capacity = cap
    rw [pushSeq_capacity, buffer_init_capacity hcap]
  refine ⟨⟨hwf.2.1, by rw [hwf.1, hcapeq]⟩, ?_⟩
  intro ok d hfull
  have hf : b.size = b.capacity := by
    simpa [buffer_is_full] using hfull
  have heq := buffer_push_full hwf hf ok d
  have hhead : b.head < b.buffer.length := by
    rw [hwf.1]
    rw [hwf.2.2.2.1]
    exact Nat.mod_lt _ hwf.2.2.2.2
  rw [heq]
  refine ⟨rfl, rfl, rfl, ?_, by simp [hwf.1, hcapeq], ?_⟩
  · exact getD_set_self _ _ _ (by simpa using hhead)
  · simp only
    rw [← hcapeq]
    omega

/-- C1 witness: a concrete instance — capacity 1, one push (making the buffer
full), then the full-push clause at a concrete snapshot. -/
theorem buffer_push_bounded_witness :
    0 < 1 ∧
    (let b := pushSeq [(true, zero_sensor_data)] (buffer_init 1).2
     (b.size ≤ b.capacity ∧ b.buffer.length = 1) ∧
     (∀ ok d, buffer_is_full b = true →
       (buffer_push ok b d).1 = ESP_OK ∧
       (buffer_push ok b d).2.2 =
         (if (b.buffer.getD b.tail zero_sensor_data).camera_data_valid = true ∧
             (b.buffer.getD b.tail zero_sensor_data).camera_data.frame_buffer.isSome = true
          then (b.buffer.getD b.tail zero_sensor_data).camera_data.frame_buffer
          else none) ∧
       (buffer_push ok b d).2.1.tail = (b.tail + 1) % b.capacity ∧
       (buffer_push ok b d).2.1.buffer.getD b.head zero_sensor_data = push_copied ok d ∧
       (buffer_push ok b d).2.1.buffer.length = 1 ∧
       (buffer_push ok b d).2.1.size ≤ 1)) :=
  ⟨by decide, buffer_push_bounded 1 (by decide) [(true, zero_sensor_data)]⟩

lemma buffer_init_tail {cap : Nat} : (buffer_init cap).2.tail = 0 := by
  unfold buffer_init
  split <;> rfl

lemma buffer_init_head {cap : Nat} : (buffer_init cap).2.head = 0 := by
  unfold buffer_init
  split <;> rfl

/-- C2: pushing a snapshot whose camera validity flag is set and whose frame
buffer holds `bs` (with `buffer_size = bs.length > 0`) into a fresh buffer and
popping it yields a frame of the same size with byte-identical contents, and
the slot inside the storage no longer references the frame (its pointer is
cleared on pop, so no double free can occur). -/
theorem buffer_frame_roundtrip (cap : Nat) (hcap : 0 < cap) (d : sensor_data_t)
    (bs : List Nat) (hvalid : d.camera_data_valid = true)
    (hframe : d.camera_data.frame_buffer = some bs)
    (hsize : d.camera_data.buffer_size = bs.length) (hpos : 0 < bs.length) :
    let b1 := (buffer_push true (buffer_init cap).2 d).2.1
    let r := buffer_pop b1 zero_sensor_data
    r.1 = ESP_OK ∧
    r.2.2.camera_data.frame_buffer = some bs ∧
    (r.2.2.camera_data.frame_buffer.getD []).length = bs.length ∧
    (r.2.1.buffer.getD 0 zero_sensor_data).camera_data.frame_buffer = none := by
  intro b1 r
  have hwf0 := bufwf_init hcap
  have hlt : (buffer_init cap).2.size < (buffer_init cap).2.capacity := by
    rw [buffer_init_size, buffer_init_capacity hcap]
    exact hcap
  have heqpush := buffer_push_not_full hwf0 hlt true d
  have hwf1 : BufWF b1 := bufwf_push_not_full hwf0 hlt true d
  have hcopyv : (push_copied true d).camera_data_valid = true := by
    unfold push_copied
    rw [if_pos ⟨hvalid, by rw [hframe]; rfl, by rw [hsize]; exact hpos⟩]
    simpa using hvalid
  have hcopyf : (push_copied true d).camera_data.frame_buffer = some bs := by
    unfold push_copied
    rw [if_pos ⟨hvalid, by rw [hframe]; rfl, by rw [hsize]; exact hpos⟩]
    simp [hframe, hsize, List.take_length]
  have hlist : bufList b1 = [push_copied true d] := by
    have := bufList_push_not_full hwf0 hlt true d
    rw [bufList_init] at this
    simpa using this
  have hpos1 : 0 < b1.size := by
    have hL := bufList_length b1
    rw [hlist] at hL
    simp at hL
    omega
  have htail1 : b1.tail = 0 := by
    show (buffer_push true (buffer_init cap).2 d).2.1.tail = 0
    rw [heqpush]
    exact buffer_init_tail
  have hslot : b1.buffer.getD b1.tail zero_sensor_data = push_copied true d := by
    have h0 := buffer_pop_of_nonempty hwf1 hpos1 zero_sensor_data
    have : b1.buffer.getD b1.tail zero_sensor_data = (bufList b1).getD 0 zero_sensor_data := by
      simp only [bufList]
      obtain ⟨k, hk⟩ : ∃ k, b1.size = k + 1 := ⟨b1.size - 1, by omega⟩
      rw [hk, List.range_succ_eq_map]
      simp [Nat.mod_eq_of_lt (lt_of_eq_of_lt (htail1) hwf1.2.2.2.2)]
    rw [this, hlist]
    rfl
  obtain ⟨h1, h2, -, -, -, -⟩ := buffer_pop_of_nonempty hwf1 hpos1 zero_sensor_data
  have hclear := buffer_pop_clears_slot hwf1 hpos1 (by rw [hslot]; exact hcopyv) zero_sensor_data
  rw [htail1] at hslot hclear
  rw [hslot] at hclear
  have hout : (buffer_pop b1 zero_sensor_data).2.2 = push_copied true d := by
    rw [h2, hlist]
    rfl
  refine ⟨h1, ?_, ?_, ?_⟩
  · show (buffer_pop b1 zero_sensor_data).2.2.camera_data.frame_buffer = some bs
    rw [hout]
    exact hcopyf
  · show ((buffer_pop b1 zero_sensor_data).2.2.camera_data.frame_buffer.getD []).length = bs.length
    rw [hout, hcopyf]
    rfl
  · show ((buffer_pop b1 zero_sensor_data).2.1.buffer.getD 0 zero_sensor_data).camera_data.frame_buffer = none
    rw [hclear]
    rfl

/-- Concrete snapshot carrying a 3-byte camera frame, used by witnesses. -/
def sample_frame_snapshot : sensor_data_t :=
  { zero_sensor_data with
      camera_data :=
        { frame_buffer := some [1, 2, 3], buffer_size := 3, width := 3, height := 1,
          timestamp := 0 }
      camera_data_valid := true
      sequence_number := 7 }

/-- C2 witness: the round trip at capacity 2 with the concrete frame [1,2,3]. -/
theorem buffer_frame_roundtrip_witness :
    0 < 2 ∧ sample_frame_snapshot.camera_data_valid = true ∧
    (let b1 := (buffer_push true (buffer_init 2).2 sample_frame_snapshot).2.1
     let r := buffer_pop b1 zero_sensor_data
     r.1 = ESP_OK ∧
     r.2.2.camera_data.frame_buffer = some [1, 2, 3] ∧
     (r.2.2.camera_data.frame_buffer.getD []).length = [1, 2, 3].length ∧
     (r.2.1.buffer.getD 0 zero_sensor_data).camera_data.frame_buffer = none) :=
  ⟨by decide, rfl,
   buffer_frame_roundtrip 2 (by decide) sample_frame_snapshot [1, 2, 3] rfl rfl rfl (by decide)⟩

/-- C3: on a well-formed buffer, `buffer_pop` fails with `NOT_FOUND` exactly
when the buffer is empty, leaving everything unchanged; otherwise it returns
the oldest entry and decrements `size`.  Consequently pushing snapshots with
sequence numbers 1..N (N at most the capacity) and popping N times yields
them in ascending sequence-number order. -/
theorem buffer_pop_fifo :
    (∀ (b : sensor_data_buffer_t) (d0 : sensor_data_t), BufWF b →
      (buffer_is_empty b = true → buffer_pop b d0 = (ESP_ERR_NOT_FOUND, b, d0)) ∧
      (buffer_is_empty b = false →
        (buffer_pop b d0).1 = ESP_OK ∧
        (buffer_pop b d0).2.2 = (bufList b).getD 0 zero_sensor_data ∧
        (buffer_pop b d0).2.1.size = b.size - 1)) ∧
    (∀ (cap : Nat) (ds : List (Bool × sensor_data_t)), 0 < cap → ds.length ≤ cap →
      (∀ k, k < ds.length → (ds.getD k (true, zero_sensor_data)).2.sequence_number = k + 1) →
      (popN ds.length (pushSeq ds (buffer_init cap).2)).2.map sensor_data_t.sequence_number =
        (List.range ds.length).map (· + 1)) := by
  constructor
  · intro b d0 hwf
    constructor
    · intro he
      have h0 : b.size = 0 := by simpa [buffer_is_empty] using he
      exact buffer_pop_of_empty hwf h0 d0
    · intro he
      have hpos : 0 < b.size := by
        have hne0 : b.size ≠ 0 := by simpa [buffer_is_empty] using he
        omega
      obtain ⟨h1, h2, -, -, h5, -⟩ := buffer_pop_of_nonempty hwf hpos d0
      exact ⟨h1, h2, h5⟩
  · intro cap ds hcap hlen hseq
    have hwf0 := bufwf_init hcap
    have hq : bufList (pushSeq ds (buffer_init cap).2) =
        ds.map (fun p => push_copied p.1 p.2) := by
      rw [bufList_pushSeq ds hwf0
          (by rw [buffer_init_size, buffer_init_capacity hcap]; simpa using hlen),
        bufList_init]
      simp
    have hy := popN_yields (bufwf_pushSeq ds hwf0) hq
    rw [List.length_map] at hy
    rw [hy, List.map_map]
    apply List.ext_getElem (by simp)
    intro i h1 h2
    simp only [List.getElem_map, List.getElem_range, Function.comp_apply]
    rw [push_copied_seq]
    have h3 : i < ds.length := by simpa using h1
    have h4 := hseq i h3
    rw [List.getD_eq_getElem ds _ h3] at h4
    exact h4

/-- Three concrete pushes with sequence numbers 1, 2, 3 (witness data). -/
def fifo_sample_pushes : List (Bool × sensor_data_t) :=
  [(true, { zero_sensor_data with sequence_number := 1 }),
   (true, { zero_sensor_data with sequence_number := 2 }),
   (true, { zero_sensor_data with sequence_number := 3 })]

/-- C3 witness: popping the fresh capacity-2 buffer fails with `NOT_FOUND`,
and pushing sequence numbers 1..3 into a capacity-3 buffer then popping three
times yields 1, 2, 3. -/
theorem buffer_pop_fifo_witness :
    (buffer_pop (buffer_init 2).2 zero_sensor_data =
      (ESP_ERR_NOT_FOUND, (buffer_init 2).2, zero_sensor_data)) ∧
    ((popN 3 (pushSeq fifo_sample_pushes (buffer_init 3).2)).2.map
        sensor_data_t.sequence_number =
      (List.range 3).map (· + 1)) :=
  ⟨(buffer_pop_fifo.1 (buffer_init 2).2 zero_sensor_data (by decide)).1 (by decide),
   buffer_pop_fifo.2 3 fifo_sample_pushes (by decide) (by decide) (by decide)⟩

/-- C4: when `buffer_push` copies a snapshot carrying a valid positive-size
frame buffer and the allocation of the independent copy fails, the stored
entry's camera validity flag is cleared and its frame pointer is NULL, but
the entry is still inserted (head advances, size increments) and
`buffer_push` still returns `ESP_OK`; the allocation failure never aborts the
push. -/
theorem buffer_push_alloc_failure (b : sensor_data_buffer_t) (d : sensor_data_t)
    (hwf : BufWF b) (hnf : buffer_is_full b = false)
    (hvalid : d.camera_data_valid = true)
    (hframe : d.camera_data.frame_buffer.isSome = true)
    (hsize : 0 < d.camera_data.buffer_size) :
    (buffer_push false b d).1 = ESP_OK ∧
    (buffer_push false b d).2.1.buffer.getD b.head zero_sensor_data =
      { d with
          camera_data := { d.camera_data with frame_buffer := none }
          camera_data_valid := false } ∧
    (buffer_push false b d).2.1.head = (b.head + 1) % b.capacity ∧
    (buffer_push false b d).2.1.size = b.size + 1 := by
  have hlt : b.size < b.capacity := by
    have hne : b.size ≠ b.capacity := by simpa [buffer_is_full] using hnf
    exact lt_of_le_of_ne hwf.2.1 hne
  have heq := buffer_push_not_full hwf hlt false d
  have hcopy : push_copied false d =
      { d with
          camera_data := { d.camera_data with frame_buffer := none }
          camera_data_valid := false } := by
    unfold push_copied
    rw [if_pos ⟨hvalid, hframe, hsize⟩, if_neg (by simp)]
  rw [heq]
  refine ⟨rfl, ?_, rfl, rfl⟩
  rw [← hcopy]
  exact getD_set_self _ _ _
    (by rw [hwf.1, hwf.2.2.2.1]; exact Nat.mod_lt _ hwf.2.2.2.2)

/-- C4 witness: a failed frame allocation on a concrete push into a fresh
capacity-2 buffer. -/
theorem buffer_push_alloc_failure_witness :
    BufWF (buffer_init 2).2 ∧ buffer_is_full (buffer_init 2).2 = false ∧
    sample_frame_snapshot.camera_data_valid = true ∧
    ((buffer_push false (buffer_init 2).2 sample_frame_snapshot).1 = ESP_OK ∧
     (buffer_push false (buffer_init 2).2 sample_frame_snapshot).2.1.buffer.getD
        (buffer_init 2).2.head zero_sensor_data =
       { sample_frame_snapshot with
           camera_data := { sample_frame_snapshot.camera_data with frame_buffer := none }
           camera_data_valid := false } ∧
     (buffer_push false (buffer_init 2).2 sample_frame_snapshot).2.1.head =
       ((buffer_init 2).2.head + 1) % (buffer_init 2).2.capacity ∧
     (buffer_push false (buffer_init 2).2 sample_frame_snapshot).2.1.size =
       (buffer_init 2).2.size + 1) :=
  ⟨by decide, by decide, rfl,
   buffer_push_alloc_failure (buffer_init 2).2 sample_frame_snapshot
     (by decide) (by decide) rfl rfl (by decide)⟩

/-! ### Sensor fusion (src/main/processing/sensor_fusion.c) -/

/-- The per-call correction factor of `sensor_fusion_process` (line 63 of
sensor_fusion.c): `1.0f - (fabs(roll) + fabs(pitch)) / 180.0f * 0.1f`. -/
def orientation_factor (d : sensor_data_t) : ℚ :=
  1 - (|d.imu_data.orientation 0| + |d.imu_data.orientation 1|) / 180 * (1 / 10)

/-- src/main/processing/sensor_fusion.c: `sensor_fusion_process`
(lines 39-86).  `inited` models the module's static `sensor_fusion_initialized`
flag.  When both flex and IMU data are valid, every posture angle (indices
0..9) is multiplied by the orientation factor; the history buffer argument is
only read (never written), and is returned unchanged to make that observable.
The module-static `last_fused_data` copy (lines 82-83) only feeds
`sensor_fusion_get_latest` and is not modelled. -/
def sensor_fusion_process (inited : Bool) (new_data : sensor_data_t)
    (data_buffer : sensor_data_buffer_t) :
    esp_err_t × sensor_data_t × sensor_data_buffer_t :=
  if inited = false then (ESP_ERR_INVALID_STATE, new_data, data_buffer)
  else
    let out :=
      if new_data.flex_data_valid = true ∧ new_data.imu_data_valid = true then
        { new_data with
            flex_data :=
              { new_data.flex_data with
                angles := fun i =>
                  if i < 10 then new_data.flex_data.angles i * orientation_factor new_data
                  else new_data.flex_data.angles i } }
      else new_data
    (ESP_OK, out, data_buffer)

/-- Concrete snapshot for the fusion counterexample: posture and inertial
valid, roll = 90 degrees, pitch = 0, first joint angle 30 degrees. -/
def fusion_sample_snapshot : sensor_data_t :=
  { zero_sensor_data with
      flex_data := { raw_values := fun _ => 0, angles := fun _ => 30, timestamp := 0 }
      imu_data :=
        { accel := fun _ => 0, gyro := fun _ => 0
          orientation := fun i => if i = 0 then 90 else 0, timestamp := 0 }
      flex_data_valid := true
      imu_data_valid := true }

/-- C7 counterexample: `sensor_fusion_process` is not idempotent.  At a
snapshot with roll = 90 and angle 30, one application yields angle
30 · 0.95 = 28.5, a second application yields 28.5 · 0.95 = 27.075, so the
twice-fused snapshot differs from the once-fused one. -/
theorem sensor_fusion_not_idempotent_cex :
    (sensor_fusion_process true fusion_sample_snapshot (buffer_init 5).2).2.1.flex_data.angles 0
      = 57 / 2 ∧
    (sensor_fusion_process true
        (sensor_fusion_process true fusion_sample_snapshot (buffer_init 5).2).2.1
        (buffer_init 5).2).2.1.flex_data.angles 0 = 1083 / 40 ∧
    (sensor_fusion_process true
        (sensor_fusion_process true fusion_sample_snapshot (buffer_init 5).2).2.1
        (buffer_init 5).2).2.1 ≠
      (sensor_fusion_process true fusion_sample_snapshot (buffer_init 5).2).2.1 := by
  have e1 : (sensor_fusion_process true fusion_sample_snapshot
      (buffer_init 5).2).2.1.flex_data.angles 0 = 57 / 2 := by
    simp [sensor_fusion_process, orientation_factor, fusion_sample_snapshot, zero_sensor_data]
    norm_num
  have e2 : (sensor_fusion_process true
      (sensor_fusion_process true fusion_sample_snapshot (buffer_init 5).2).2.1
      (buffer_init 5).2).2.1.flex_data.angles 0 = 1083 / 40 := by
    simp [sensor_fusion_process, orientation_factor, fusion_sample_snapshot, zero_sensor_data]
    norm_num
  refine ⟨e1, e2, ?_⟩
  intro h
  have h0 := congrArg (fun s => s.flex_data.angles 0) h
  simp only at h0
  rw [e1, e2] at h0
  norm_num at h0

/-- One fused step when both posture and inertial data are valid: every
posture angle below index 10 is scaled by the orientation factor. -/
lemma sensor_fusion_angles {sd : sensor_data_t} (buf : sensor_data_buffer_t)
    (hf : sd.flex_data_valid = true) (him : sd.imu_data_valid = true) :
    (sensor_fusion_process true sd buf).2.1 =
      { sd with
          flex_data :=
            { sd.flex_data with
              angles := fun i =>
                if i < 10 then sd.flex_data.angles i * orientation_factor sd
                else sd.flex_data.angles i } } := by
  simp [sensor_fusion_process, hf, him]

/-- C7 (amended): `sensor_fusion_process` never mutates the history buffer
and leaves the snapshot unchanged when posture and inertial data are not both
valid, but it is not idempotent in general: each application multiplies every
posture angle by the orientation factor again, so a second application scales
the once-fused angles by that factor; it is idempotent exactly in the
degenerate case where the factor is 1 (roll = pitch = 0) or no fusion
occurs. -/
theorem sensor_fusion_amended (sd : sensor_data_t) (buf : sensor_data_buffer_t) :
    (sensor_fusion_process true sd buf).2.2 = buf ∧
    (sensor_fusion_process true sd buf).1 = ESP_OK ∧
    (¬(sd.flex_data_valid = true ∧ sd.imu_data_valid = true) →
      (sensor_fusion_process true sd buf).2.1 = sd) ∧
    (sd.flex_data_valid = true → sd.imu_data_valid = true → ∀ i, i < 10 →
      (sensor_fusion_process true (sensor_fusion_process true sd buf).2.1 buf).2.1.flex_data.angles i =
        orientation_factor sd * (sensor_fusion_process true sd buf).2.1.flex_data.angles i) ∧
    (sd.imu_data.orientation 0 = 0 → sd.imu_data.orientation 1 = 0 →
      (sensor_fusion_process true (sensor_fusion_process true sd buf).2.1 buf).2.1 =
        (sensor_fusion_process true sd buf).2.1) := by
  refine ⟨?_, ?_, ?_, ?_, ?_⟩
  · unfold sensor_fusion_process
    simp
  · unfold sensor_fusion_process
    simp
  · intro hv
    simp [sensor_fusion_process, hv]
  · intro hf him i hi
    have h1 := sensor_fusion_angles buf hf him
    rw [h1]
    have h2 := @sensor_fusion_angles
      { sd with
          flex_data :=
            { sd.flex_data with
              angles := fun i =>
                if i < 10 then sd.flex_data.angles i * orientation_factor sd
                else sd.flex_data.angles i } } buf hf him
    rw [h2]
    have hfac : orientation_factor
        { sd with
            flex_data :=
              { sd.flex_data with
                angles := fun i =>
                  if i < 10 then sd.flex_data.angles i * orientation_factor sd
                  else sd.flex_data.angles i } } = orientation_factor sd := rfl
    simp only [hfac, hi, if_pos]
    ring
  · intro h0 h1
    have honce : (sensor_fusion_process true sd buf).2.1 = sd := by
      by_cases hv : sd.flex_data_valid = true ∧ sd.imu_data_valid = true
      · rw [sensor_fusion_angles buf hv.1 hv.2]
        have hfac : orientation_factor sd = 1 := by
          simp [orientation_factor, h0, h1]
        have hang : (fun i =>
            if i < 10 then sd.flex_data.angles i * orientation_factor sd
            else sd.flex_data.angles i) = sd.flex_data.angles := by
          funext i
          rw [hfac, mul_one]
          exact ite_self _
        rw [hang]
      · simp [sensor_fusion_process, hv]
    rw [honce]
    exact honce

/-- C7 witness: the amended theorem applied at concrete snapshots — an
all-invalid snapshot is left unchanged with the history buffer untouched, and
for the both-valid sample the second application rescales the fused angle by
the orientation factor. -/
theorem sensor_fusion_amended_witness :
    (sensor_fusion_process true zero_sensor_data (buffer_init 4).2).2.2 = (buffer_init 4).2 ∧
    (sensor_fusion_process true zero_sensor_data (buffer_init 4).2).2.1 = zero_sensor_data ∧
    (sensor_fusion_process true
        (sensor_fusion_process true fusion_sample_snapshot (buffer_init 4).2).2.1
        (buffer_init 4).2).2.1.flex_data.angles 0 =
      orientation_factor fusion_sample_snapshot *
        (sensor_fusion_process true fusion_sample_snapshot (buffer_init 4).2).2.1.flex_data.angles 0 :=
  ⟨(sensor_fusion_amended zero_sensor_data (buffer_init 4).2).1,
   (sensor_fusion_amended zero_sensor_data (buffer_init 4).2).2.2.1 (by decide),
   (sensor_fusion_amended fusion_sample_snapshot (buffer_init 4).2).2.2.2.1 rfl rfl 0 (by decide)⟩

/-! ### Flex-sensor calibration (src/main/drivers/flex_sensor.c) -/

/-- src/main/drivers/flex_sensor.h: `flex_sensor_calibration_t` (4 arrays of
10 entries each). -/
structure flex_sensor_calibration_t where
  flat_value : Nat → Nat
  bent_value : Nat → Nat
  scale_factor : Nat → ℚ
  offset : Nat → ℚ

/-- The static initializer of `sensor_calibration` (flex_sensor.c lines
21-26): flat 2000, bent 3500, scale 1, offset 0. -/
def default_flex_calibration : flex_sensor_calibration_t :=
  { flat_value := fun _ => 2000
    bent_value := fun _ => 3500
    scale_factor := fun _ => 1
    offset := fun _ => 0 }

/-- The flat value after the degeneracy guard of
`calculate_calibration_factors` (lines 54-59): if the two calibration points
are closer than 100 counts, fall back to the default 2000. -/
def guarded_flat (c : flex_sensor_calibration_t) (i : Nat) : Nat :=
  if ((c.bent_value i : ℤ) - (c.flat_value i : ℤ)).natAbs < 100 then 2000
  else c.flat_value i

/-- The bent value after the degeneracy guard (default fallback 3500). -/
def guarded_bent (c : flex_sensor_calibration_t) (i : Nat) : Nat :=
  if ((c.bent_value i : ℤ) - (c.flat_value i : ℤ)).natAbs < 100 then 3500
  else c.bent_value i

/-- src/main/drivers/flex_sensor.c: `calculate_calibration_factors`
(lines 51-70).  For each joint 0..9: apply the degeneracy guard, then
`scale = 90 / (bent - flat)` and `offset = -scale * flat` (the `uint16_t`
operands are promoted to `int` for the subtraction, hence the `ℤ` casts). -/
def calculate_calibration_factors (c : flex_sensor_calibration_t) :
    flex_sensor_calibration_t :=
  { flat_value := fun i => if i < 10 then guarded_flat c i else c.flat_value i
    bent_value := fun i => if i < 10 then guarded_bent c i else c.bent_value i
    scale_factor := fun i =>
      if i < 10 then 90 / (((guarded_bent c i : ℤ) - (guarded_flat c i : ℤ) : ℤ) : ℚ)
      else c.scale_factor i
    offset := fun i =>
      if i < 10 then
        -(90 / (((guarded_bent c i : ℤ) - (guarded_flat c i : ℤ) : ℤ) : ℚ)) *
          (guarded_flat c i : ℚ)
      else c.offset i }

/-- src/main/drivers/flex_sensor.c: `flex_sensor_calibrate_flat`
(lines 193-198).  It stores the current raw readings (`raw`) into
`flat_value` and returns; it does NOT call `calculate_calibration_factors`. -/
def flex_sensor_calibrate_flat (raw : Nat → Nat) (c : flex_sensor_calibration_t) :
    flex_sensor_calibration_t :=
  { c with flat_value := fun i => if i < 10 then raw i else c.flat_value i }

/-- src/main/drivers/flex_sensor.c: `flex_sensor_calibrate_bent`
(lines 200-213): store the raw readings into `bent_value`, then recompute the
factors. -/
def flex_sensor_calibrate_bent (raw : Nat → Nat) (c : flex_sensor_calibration_t) :
    flex_sensor_calibration_t :=
  calculate_calibration_factors
    { c with bent_value := fun i => if i < 10 then raw i else c.bent_value i }

/-- src/main/drivers/flex_sensor.c: `flex_sensor_load_calibration`
(lines 245-272), successful path: the stored blob replaces the calibration
and the factors are recomputed. -/
def flex_sensor_load_calibration (stored : flex_sensor_calibration_t) :
    flex_sensor_calibration_t :=
  calculate_calibration_factors stored

/-- src/main/drivers/flex_sensor.c: `flex_sensor_reset_calibration`
(lines 274-288): restore default flat/bent values and recompute factors. -/
def flex_sensor_reset_calibration (c : flex_sensor_calibration_t) :
    flex_sensor_calibration_t :=
  calculate_calibration_factors
    { c with
        flat_value := fun i => if i < 10 then 2000 else c.flat_value i
        bent_value := fun i => if i < 10 then 3500 else c.bent_value i }

/-- C9 counterexample: `flex_sensor_calibrate_flat` changes the baseline
without recomputing scale/offset.  Starting from the boot calibration
(defaults, factors computed: scale 3/50, offset -120) and calibrating flat
with raw readings of 2500, the stored flat value 2500 maps to 30 degrees,
not 0. -/
theorem calibrate_flat_stale_factors_cex :
    (flex_sensor_calibrate_flat (fun _ => 2500)
        (calculate_calibration_factors default_flex_calibration)).flat_value 0 = 2500 ∧
    (flex_sensor_calibrate_flat (fun _ => 2500)
          (calculate_calibration_factors default_flex_calibration)).scale_factor 0 *
        ((flex_sensor_calibrate_flat (fun _ => 2500)
          (calculate_calibration_factors default_flex_calibration)).flat_value 0 : ℚ) +
      (flex_sensor_calibrate_flat (fun _ => 2500)
          (calculate_calibration_factors default_flex_calibration)).offset 0 = 30 ∧
    (30 : ℚ) ≠ 0 := by
  refine ⟨rfl, ?_, by norm_num⟩
  simp [flex_sensor_calibrate_flat, calculate_calibration_factors, guarded_flat,
    guarded_bent, default_flex_calibration]
  norm_num

/-- The guarded calibration points are never equal (their separation is at
least 100 counts, or the default 1500). -/
lemma guarded_separation (c : flex_sensor_calibration_t) (i : Nat) :
    ((guarded_bent c i : ℤ) - (guarded_flat c i : ℤ)) ≠ 0 := by
  unfold guarded_bent guarded_flat
  split
  · norm_num
  · rename_i h
    intro hEq
    apply h
    rw [show ((c.bent_value i : ℤ) - (c.flat_value i : ℤ)) = 0 from hEq]
    norm_num

/-- C9 (amended): every operation that ends in `calculate_calibration_factors`
(`calibrate_bent`, `load`, `reset`) re-establishes, for every joint, the
affine mapping `scale * flat + offset = 0` and `scale * bent + offset = 90`
on the (guard-adjusted) stored values, and whenever the two stored
calibration points are closer than 100 counts the flat/bent values fall back
to the defaults 2000/3500 instead of producing a degenerate scale.
`flex_sensor_calibrate_flat`, however, only stores the new flat readings:
scale and offset are left unchanged (recomputation happens only at the next
`calibrate_bent`/`load`/`reset`). -/
theorem calibration_factors_amended (c : flex_sensor_calibration_t)
    (raw : Nat → Nat) (i : Nat) (hi : i < 10) :
    ((calculate_calibration_factors c).scale_factor i *
        ((calculate_calibration_factors c).flat_value i : ℚ) +
      (calculate_calibration_factors c).offset i = 0) ∧
    ((calculate_calibration_factors c).scale_factor i *
        ((calculate_calibration_factors c).bent_value i : ℚ) +
      (calculate_calibration_factors c).offset i = 90) ∧
    (((c.bent_value i : ℤ) - (c.flat_value i : ℤ)).natAbs < 100 →
      (calculate_calibration_factors c).flat_value i = 2000 ∧
      (calculate_calibration_factors c).bent_value i = 3500) ∧
    flex_sensor_calibrate_bent raw c =
      calculate_calibration_factors
        { c with bent_value := fun j => if j < 10 then raw j else c.bent_value j } ∧
    flex_sensor_load_calibration c = calculate_calibration_factors c ∧
    flex_sensor_reset_calibration c =
      calculate_calibration_factors
        { c with
            flat_value := fun j => if j < 10 then 2000 else c.flat_value j
            bent_value := fun j => if j < 10 then 3500 else c.bent_value j } ∧
    (flex_sensor_calibrate_flat raw c).scale_factor = c.scale_factor ∧
    (flex_sensor_calibrate_flat raw c).offset = c.offset ∧
    (flex_sensor_calibrate_flat raw c).flat_value i = raw i := by
  have hsep := guarded_separation c i
  have hsepq : (((guarded_bent c i : ℤ) - (guarded_flat c i : ℤ) : ℤ) : ℚ) ≠ 0 := by
    exact_mod_cast hsep
  refine ⟨?_, ?_, ?_, rfl, rfl, rfl, rfl, rfl, by simp [flex_sensor_calibrate_flat, hi]⟩
  · simp only [calculate_calibration_factors, hi, if_pos]
    ring
  · simp only [calculate_calibration_factors, hi, if_pos]
    have hcast : (((guarded_bent c i : ℤ) - (guarded_flat c i : ℤ) : ℤ) : ℚ) =
        (guarded_bent c i : ℚ) - (guarded_flat c i : ℚ) := by push_cast; ring
    have hne2 : (guarded_bent c i : ℚ) - (guarded_flat c i : ℚ) ≠ 0 := by
      rw [← hcast]
      exact hsepq
    rw [hcast]
    field_simp
    ring
  · intro hclose
    simp [calculate_calibration_factors, hi, guarded_flat, guarded_bent, hclose]

/-- C9 witness: the amended theorem at the default calibration, joint 0, with
concrete raw readings 2600: `calibrate_bent` style recomputation maps flat to
0 and bent to 90, and `calibrate_flat` leaves the factors untouched. -/
theorem calibration_factors_amended_witness :
    0 < 10 ∧
    ((calculate_calibration_factors default_flex_calibration).scale_factor 0 *
        ((calculate_calibration_factors default_flex_calibration).flat_value 0 : ℚ) +
      (calculate_calibration_factors default_flex_calibration).offset 0 = 0) ∧
    ((calculate_calibration_factors default_flex_calibration).scale_factor 0 *
        ((calculate_calibration_factors default_flex_calibration).bent_value 0 : ℚ) +
      (calculate_calibration_factors default_flex_calibration).offset 0 = 90) ∧
    (flex_sensor_calibrate_flat (fun _ => 2600) default_flex_calibration).scale_factor =
      default_flex_calibration.scale_factor ∧
    (flex_sensor_calibrate_flat (fun _ => 2600) default_flex_calibration).flat_value 0 = 2600 :=
  ⟨by decide,
   (calibration_factors_amended default_flex_calibration (fun _ => 2600) 0 (by decide)).1,
   (calibration_factors_amended default_flex_calibration (fun _ => 2600) 0 (by decide)).2.1,
   (calibration_factors_amended default_flex_calibration (fun _ => 2600) 0 (by decide)).2.2.2.2.2.2.1,
   (calibration_factors_amended default_flex_calibration (fun _ => 2600) 0 (by decide)).2.2.2.2.2.2.2.2⟩

/-! ### Feature extraction (src/main/processing/feature_extraction.h) -/

/-- src/main/util/buffer.h: `feature_vector_t` (100-slot float array plus a
populated-count and a timestamp); the array is modelled as a total function
with every modelled access below 100. -/
structure feature_vector_t where
  features : Nat → ℚ
  feature_count : Nat
  timestamp : Nat

/-- Zeroed feature vector (value of zero-initialized memory). -/
def zero_feature_vector : feature_vector_t :=
  { features := fun _ => 0, feature_count := 0, timestamp := 0 }

/-- src/main/processing/feature_extraction.h (embedded .c, lines 61-191):
`feature_extraction_process`.  `inited` models the module's static
`feature_extraction_initialized` flag, `now` the `esp_timer_get_time()/1000`
stamp, and `fv0` the caller's out-parameter (returned untouched on the error
path; otherwise the vector is zeroed first, modelling the `memset`).
Group by group (each `if` mirrors the source):
* flex valid: slots 0..9 joint angles, 10..13 MCP adjacent differences,
  14..17 PIP adjacent differences; `feature_count` set to 18;
* IMU valid: slots 18..20 orientation, 21..23 acceleration, 24..26 angular
  rate; `feature_count` set to 27;
* touch valid: slots 27..31 binary touch states; `feature_count` set to 32;
* history size at least 5: the `past_data` loop (lines 135-153) copies the
  CURRENT snapshot into every `past_data[i]` (the source comments note it is
  "reusing the current data"; the condition `buffer_get_size > i` holds for
  all i ≤ 4 because the size is at least 5), then, if IMU valid, slots
  32..34 hold the per-axis average over those five copies and
  `feature_count` is set to 35. -/
def feature_extraction_process (inited : Bool) (now : Nat) (sensor_data : sensor_data_t)
    (data_buffer : sensor_data_buffer_t) (fv0 : feature_vector_t) :
    esp_err_t × feature_vector_t :=
  if inited = false then (ESP_ERR_INVALID_STATE, fv0)
  else
    let f0 : Nat → ℚ := fun _ => 0
    let f1 : Nat → ℚ := fun j =>
      if sensor_data.flex_data_valid = true then
        if j < 10 then sensor_data.flex_data.angles j
        else if j < 14 then
          |sensor_data.flex_data.angles ((j - 10) * 2) -
            sensor_data.flex_data.angles ((j - 10 + 1) * 2)|
        else if j < 18 then
          |sensor_data.flex_data.angles ((j - 14) * 2 + 1) -
            sensor_data.flex_data.angles ((j - 14 + 1) * 2 + 1)|
        else f0 j
      else f0 j
    let c1 : Nat := if sensor_data.flex_data_valid = true then 18 else 0
    let f2 : Nat → ℚ := fun j =>
      if sensor_data.imu_data_valid = true then
        if 18 ≤ j ∧ j < 21 then sensor_data.imu_data.orientation (j - 18)
        else if 21 ≤ j ∧ j < 24 then sensor_data.imu_data.accel (j - 21)
        else if 24 ≤ j ∧ j < 27 then sensor_data.imu_data.gyro (j - 24)
        else f1 j
      else f1 j
    let c2 : Nat := if sensor_data.imu_data_valid = true then 27 else c1
    let f3 : Nat → ℚ := fun j =>
      if sensor_data.touch_data_valid = true ∧ 27 ≤ j ∧ j < 32 then
        if sensor_data.touch_data.touch_status (j - 27) then 1 else 0
      else f2 j
    let c3 : Nat := if sensor_data.touch_data_valid = true then 32 else c2
    let past_data : Nat → sensor_data_t := fun _ => sensor_data
    let avg_accel : Nat → ℚ := fun axis =>
      (((List.range 5).map (fun k =>
          if (past_data k).imu_data_valid = true then (past_data k).imu_data.accel axis
          else 0)).sum) / 5
    let f4 : Nat → ℚ := fun j =>
      if 5 ≤ buffer_get_size data_buffer ∧ sensor_data.imu_data_valid = true ∧
          32 ≤ j ∧ j < 35 then avg_accel (j - 32)
      else f3 j
    let c4 : Nat :=
      if 5 ≤ buffer_get_size data_buffer ∧ sensor_data.imu_data_valid = true then 35
      else c3
    (ESP_OK, { features := f4, feature_count := c4, timestamp := now })

/-- Snapshot with only the touch modality valid (all data zero). -/
def touch_only_snapshot : sensor_data_t :=
  { zero_sensor_data with touch_data_valid := true }

/-- Snapshot with only the posture modality valid (all joint angles 45). -/
def posture_only_snapshot : sensor_data_t :=
  { zero_sensor_data with
      flex_data := { raw_values := fun _ => 0, angles := fun _ => 45, timestamp := 0 }
      flex_data_valid := true }

/-- C5 counterexample: for a snapshot with touch valid but posture and
inertial invalid (and fewer than 5 history entries), the final
`feature_count` is 32 — the count covers the inertial slot range 18..26 even
though the inertial modality is invalid, because each group assigns an
absolute cumulative count rather than incrementing by its own width. -/
theorem feature_count_includes_invalid_slots_cex :
    touch_only_snapshot.imu_data_valid = false ∧
    touch_only_snapshot.flex_data_valid = false ∧
    (feature_extraction_process true 0 touch_only_snapshot (buffer_init 8).2
      zero_feature_vector).2.feature_count = 32 ∧
    ¬((feature_extraction_process true 0 touch_only_snapshot (buffer_init 8).2
      zero_feature_vector).2.feature_count ≤ 18) := by
  refine ⟨rfl, rfl, ?_, ?_⟩ <;> decide

/-- C5 (amended): a feature group whose prerequisite modality is invalid
writes none of its slots and does not itself raise `feature_count` — with
only posture valid the count is exactly 18 (10 joint angles plus 8
adjacent-joint differences), and the slots of an invalid modality stay zero.
However, `feature_count` is assigned an absolute slot bound by the last
populated group, so when a later group is populated the count also covers the
(zero-filled) slots of earlier invalid modalities: with touch valid but
inertial invalid the final count is 32, which includes the inertial slot
range 18..26. -/
theorem feature_count_groups_amended (now : Nat) (sd : sensor_data_t)
    (buf : sensor_data_buffer_t) :
    (sd.flex_data_valid = true → sd.imu_data_valid = false →
      sd.touch_data_valid = false →
      (feature_extraction_process true now sd buf zero_feature_vector).2.feature_count = 18) ∧
    (sd.imu_data_valid = false → ∀ j, 18 ≤ j → j < 27 →
      (feature_extraction_process true now sd buf zero_feature_vector).2.features j = 0) ∧
    (sd.touch_data_valid = true → sd.imu_data_valid = false →
      (feature_extraction_process true now sd buf zero_feature_vector).2.feature_count = 32) := by
  refine ⟨?_, ?_, ?_⟩
  · intro hf him ht
    simp [feature_extraction_process, hf, him, ht]
  · intro him j h18 h27
    have hn10 : ¬(j < 10) := by omega
    have hn14 : ¬(j < 14) := by omega
    have hn18 : ¬(j < 18) := by omega
    have hn27t : ¬(27 ≤ j) := by omega
    simp [feature_extraction_process, him, hn10, hn14, hn18, hn27t]
  · intro ht him
    simp [feature_extraction_process, ht, him]

/-- C5 witness: the amended behaviour at concrete snapshots — posture-only
gives count 18, touch-only gives count 32, and an inertial slot of the
touch-only snapshot is zero. -/
theorem feature_count_groups_amended_witness :
    (feature_extraction_process true 0 posture_only_snapshot (buffer_init 8).2
      zero_feature_vector).2.feature_count = 18 ∧
    (feature_extraction_process true 0 touch_only_snapshot (buffer_init 8).2
      zero_feature_vector).2.features 20 = 0 ∧
    (feature_extraction_process true 0 touch_only_snapshot (buffer_init 8).2
      zero_feature_vector).2.feature_count = 32 :=
  ⟨(feature_count_groups_amended 0 posture_only_snapshot (buffer_init 8).2).1 rfl rfl rfl,
   (feature_count_groups_amended 0 touch_only_snapshot (buffer_init 8).2).2.1 rfl 20
     (by decide) (by decide),
   (feature_count_groups_amended 0 touch_only_snapshot (buffer_init 8).2).2.2 rfl rfl⟩

/-- Snapshot with only the inertial modality valid and all three
acceleration components equal to `q`. -/
def imu_snapshot (q : ℚ) : sensor_data_t :=
  { zero_sensor_data with
      imu_data :=
        { accel := fun _ => q, gyro := fun _ => 0, orientation := fun _ => 0,
          timestamp := 0 }
      imu_data_valid := true }

/-- Specification definition (spec §4.4 item 5, for comparison with the
code): the per-axis average acceleration over the 5 most recent composite
entries of the history buffer. -/
def spec_recent_accel_avg (buf : sensor_data_buffer_t) (axis : Nat) : ℚ :=
  ((((bufList buf).reverse.take 5).map (fun e => e.imu_data.accel axis)).sum) / 5

/-- Concrete history buffer holding five snapshots whose acceleration is 1 on
every axis. -/
def c6_buffer : sensor_data_buffer_t :=
  pushSeq (List.replicate 5 (true, imu_snapshot 1)) (buffer_init 8).2

/-- C6 counterexample: with five history entries of acceleration 1 and a
current snapshot of acceleration 2, the code stores 2 in feature slot 32
(the `past_data` loop only copies the current snapshot), while the average
over the 5 most recent history entries — the value the claim specifies — is
1. -/
theorem temporal_features_ignore_history_cex :
    buffer_get_size c6_buffer = 5 ∧
    (feature_extraction_process true 0 (imu_snapshot 2) c6_buffer
      zero_feature_vector).2.features 32 = 2 ∧
    spec_recent_accel_avg c6_buffer 0 = 1 ∧
    (2 : ℚ) ≠ 1 := by
  have hsz : buffer_get_size c6_buffer = 5 := by decide
  have hr : List.range 5 = [0, 1, 2, 3, 4] := rfl
  refine ⟨hsz, ?_, ?_, by norm_num⟩
  · simp only [feature_extraction_process, Bool.true_eq_false, if_false, hsz]
    norm_num [imu_snapshot, hr]
  · have hbl : bufList c6_buffer =
        [imu_snapshot 1, imu_snapshot 1, imu_snapshot 1, imu_snapshot 1, imu_snapshot 1] := rfl
    simp only [spec_recent_accel_avg, hbl]
    norm_num [imu_snapshot]

/-- C6 (amended): when the history buffer holds at least 5 entries and the
snapshot's inertial data is valid, feature slots 32..34 equal the current
snapshot's per-axis acceleration — the `past_data` loop fills all five
"samples" with the current snapshot, so the 5-sample average collapses to the
current value rather than an average over the history buffer's entries — and
`feature_count` becomes 35; otherwise those slots stay zero and
`feature_count` stays at most 32. -/
theorem temporal_features_amended (now : Nat) (sd : sensor_data_t)
    (buf : sensor_data_buffer_t) :
    (5 ≤ buffer_get_size buf → sd.imu_data_valid = true →
      ((feature_extraction_process true now sd buf zero_feature_vector).2.features 32 =
          sd.imu_data.accel 0 ∧
       (feature_extraction_process true now sd buf zero_feature_vector).2.features 33 =
          sd.imu_data.accel 1 ∧
       (feature_extraction_process true now sd buf zero_feature_vector).2.features 34 =
          sd.imu_data.accel 2 ∧
       (feature_extraction_process true now sd buf zero_feature_vector).2.feature_count = 35)) ∧
    (¬(5 ≤ buffer_get_size buf ∧ sd.imu_data_valid = true) →
      ((feature_extraction_process true now sd buf zero_feature_vector).2.feature_count ≤ 32 ∧
       ∀ j, 32 ≤ j →
         (feature_extraction_process true now sd buf zero_feature_vector).2.features j = 0)) := by
  constructor
  · intro h5 him
    have hr : List.range 5 = [0, 1, 2, 3, 4] := rfl
    refine ⟨?_, ?_, ?_, ?_⟩
    · simp [feature_extraction_process, him, h5, hr]
      ring
    · simp [feature_extraction_process, him, h5, hr]
      ring
    · simp [feature_extraction_process, him, h5, hr]
      ring
    · simp [feature_extraction_process, him, h5]
  · intro hnc
    constructor
    · simp only [feature_extraction_process, Bool.true_eq_false, if_false, if_neg hnc]
      split
      · norm_num
      · split
        · norm_num
        · split <;> norm_num
    · intro j h32
      have ha : ¬(j < 21) := by omega
      have hb : ¬(j < 24) := by omega
      have hc : ¬(j < 27) := by omega
      have hd : ¬(j < 32) := by omega
      have he : ¬(j < 10) := by omega
      have hf : ¬(j < 14) := by omega
      have hg : ¬(j < 18) := by omega
      have hcond : ¬(5 ≤ buffer_get_size buf ∧ sd.imu_data_valid = true ∧
          32 ≤ j ∧ j < 35) := fun h => hnc ⟨h.1, h.2.1⟩
      simp [feature_extraction_process, ha, hb, hc, hd, he, hf, hg, hcond]

/-- C6 witness: at the concrete five-entry history and current acceleration
2, slots 32..34 hold 2 and the count is 35; with an empty history the count
stays at most 32 and slot 33 stays zero. -/
theorem temporal_features_amended_witness :
    (feature_extraction_process true 0 (imu_snapshot 2) c6_buffer
      zero_feature_vector).2.features 33 = (imu_snapshot 2).imu_data.accel 1 ∧
    (feature_extraction_process true 0 (imu_snapshot 2) c6_buffer
      zero_feature_vector).2.feature_count = 35 ∧
    (feature_extraction_process true 0 (imu_snapshot 2) (buffer_init 8).2
      zero_feature_vector).2.feature_count ≤ 32 ∧
    (feature_extraction_process true 0 (imu_snapshot 2) (buffer_init 8).2
      zero_feature_vector).2.features 33 = 0 :=
  ⟨((temporal_features_amended 0 (imu_snapshot 2) c6_buffer).1 (by decide) rfl).2.1,
   ((temporal_features_amended 0 (imu_snapshot 2) c6_buffer).1 (by decide) rfl).2.2.2,
   ((temporal_features_amended 0 (imu_snapshot 2) (buffer_init 8).2).2 (by decide)).1,
   ((temporal_features_amended 0 (imu_snapshot 2) (buffer_init 8).2).2 (by decide)).2 33
     (by decide)⟩

/-! ### Gesture detection (src/main/processing/gesture_detection.c) -/

/-- src/main/config/system_config.h line 66: `CONFIDENCE_THRESHOLD` 0.7. -/
def CONFIDENCE_THRESHOLD : ℚ := 7 / 10

/-- gesture_detection.c line 50: debounce window, 500 ms. -/
def GESTURE_DEBOUNCE_TIME_MS : Nat := 500

/-- src/main/util/buffer.h: `processing_result_t`. -/
structure processing_result_t where
  gesture_id : Nat
  gesture_name : String
  confidence : ℚ
  is_dynamic : Bool
  duration_ms : Nat
  timestamp : Nat
deriving DecidableEq

/-- The all-zero result produced by `memset(result, 0, ...)`. -/
def zero_result : processing_result_t :=
  { gesture_id := 0, gesture_name := "", confidence := 0, is_dynamic := false,
    duration_ms := 0, timestamp := 0 }

/-- gesture_detection.c lines 23-28: `gesture_template_t`. -/
structure gesture_template_t where
  name : String
  template_features : Nat → ℚ
  feature_count : Nat
  is_dynamic : Bool

instance : Inhabited gesture_template_t :=
  ⟨{ name := "", template_features := fun _ => 0, feature_count := 0, is_dynamic := false }⟩

/-- Template "A" after `gesture_detection_init` (lines 59-65): joints 0..9 at
70, overridden to 30 and 40 for the thumb slots; 32 features. -/
def template_A : gesture_template_t :=
  { name := "A"
    template_features := fun j => if j = 0 then 30 else if j = 1 then 40
      else if j < 10 then 70 else 0
    feature_count := 32
    is_dynamic := false }

/-- Template "B" after `gesture_detection_init` (lines 67-70): all features
zero; 32 features. -/
def template_B : gesture_template_t :=
  { name := "B", template_features := fun _ => 0, feature_count := 32,
    is_dynamic := false }

/-- The remaining 8 entries of the static `gesture_templates[10]` array are
zero-initialized: empty name, zero features, feature_count 0. -/
def zero_template : gesture_template_t :=
  { name := "", template_features := fun _ => 0, feature_count := 0,
    is_dynamic := false }

/-- The vocabulary after `gesture_detection_init` (NUM_GESTURES = 10). -/
def gesture_templates : List gesture_template_t :=
  [template_A, template_B, zero_template, zero_template, zero_template,
   zero_template, zero_template, zero_template, zero_template, zero_template]

/-- gesture_detection.c lines 48-49: the module-static debounce state. -/
structure gesture_state_t where
  last_detected_gesture : String
  last_detection_time : Nat
deriving DecidableEq

/-- Debounce state at module load: empty name, time 0. -/
def init_gesture_state : gesture_state_t :=
  { last_detected_gesture := "", last_detection_time := 0 }

/-- gesture_detection.c lines 115-136: similarity of one template against the
input vector — the average over the overlapping feature range of
`1 / (1 + |input[j] - template[j]|)`.  When `compare_count = 0` the C float
division yields NaN and the subsequent `score > best` comparison is false;
in ℚ the division yields 0 and the comparison is equally false, so the two
models agree on every observable outcome. -/
def template_score (fv : feature_vector_t) (t : gesture_template_t) : ℚ :=
  let compare_count := min t.feature_count fv.feature_count
  let similarity := ((List.range compare_count).map
      (fun j => 1 / (1 + |fv.features j - t.template_features j|))).sum
  similarity / (compare_count : ℚ)

/-- gesture_detection.c lines 101-143: the best-match fold over the template
array, from state `(best_match_score, best_match_index)` = `(0, -1)`.
Templates whose `feature_count` exceeds the input's are skipped; a template
becomes the best match only if its score strictly exceeds the current best. -/
def best_match_aux (fv : feature_vector_t) :
    List (Nat × gesture_template_t) → ℚ × Int → ℚ × Int
  | [], acc => acc
  | (i, t) :: rest, acc =>
    if fv.feature_count < t.feature_count then best_match_aux fv rest acc
    else
      let score := template_score fv t
      if acc.1 < score then best_match_aux fv rest (score, (i : Int))
      else best_match_aux fv rest acc

/-- The `(best_match_score, best_match_index)` pair after the template loop. -/
def best_match (templates : List gesture_template_t) (fv : feature_vector_t) :
    ℚ × Int :=
  best_match_aux fv templates.enum (0, -1)

/-- src/main/processing/gesture_detection.c: `gesture_detection_process`
(lines 87-173).  `inited` models the static initialized flag (the error path
leaves the caller's `result0` untouched — the `memset` happens after the
check), `current_time` models `esp_timer_get_time() / 1000`, and `st` the
static debounce state, returned updated. -/
def gesture_detection_process (inited : Bool) (templates : List gesture_template_t)
    (current_time : Nat) (feature_vector : feature_vector_t)
    (result0 : processing_result_t) (st : gesture_state_t) :
    esp_err_t × processing_result_t × gesture_state_t :=
  if inited = false then (ESP_ERR_INVALID_STATE, result0, st)
  else
    let best_match_score := (best_match templates feature_vector).1
    let best_match_index := (best_match templates feature_vector).2
    if 0 ≤ best_match_index ∧ CONFIDENCE_THRESHOLD ≤ best_match_score then
      let tmpl := templates.getD best_match_index.toNat default
      if st.last_detected_gesture = tmpl.name ∧
          current_time - st.last_detection_time < GESTURE_DEBOUNCE_TIME_MS then
        -- debounce suppression: the zeroed result is returned, the state is
        -- left unchanged (the detection time is NOT refreshed)
        (ESP_OK, zero_result, st)
      else
        (ESP_OK,
         { gesture_id := best_match_index.toNat
           gesture_name := tmpl.name
           confidence := best_match_score
           is_dynamic := tmpl.is_dynamic
           duration_ms := 0
           timestamp := 0 },
         { last_detected_gesture := tmpl.name, last_detection_time := current_time })
    else (ESP_OK, zero_result, st)

/-- C8: when the best match qualifies (non-negative index, score at least the
threshold), a candidate whose name equals the immediately preceding emitted
gesture is suppressed — zeroed result, state untouched — if less than the
500 ms debounce window has elapsed since that gesture's last emission; and
whenever the name differs or the window has elapsed, the gesture fires
(result filled, state updated to the new name and time), so the same name
re-fires once the window has passed. -/
theorem gesture_debounce (templates : List gesture_template_t) (t : Nat)
    (fv : feature_vector_t) (r0 : processing_result_t) (st : gesture_state_t)
    (score : ℚ) (idx : Int)
    (hbm : best_match templates fv = (score, idx)) (hidx : 0 ≤ idx)
    (hscore : CONFIDENCE_THRESHOLD ≤ score) :
    (st.last_detected_gesture = (templates.getD idx.toNat default).name →
      t - st.last_detection_time < GESTURE_DEBOUNCE_TIME_MS →
      gesture_detection_process true templates t fv r0 st = (ESP_OK, zero_result, st)) ∧
    (st.last_detected_gesture ≠ (templates.getD idx.toNat default).name ∨
      GESTURE_DEBOUNCE_TIME_MS ≤ t - st.last_detection_time →
      gesture_detection_process true templates t fv r0 st =
        (ESP_OK,
         { gesture_id := idx.toNat
           gesture_name := (templates.getD idx.toNat default).name
           confidence := score
           is_dynamic := (templates.getD idx.toNat default).is_dynamic
           duration_ms := 0
           timestamp := 0 },
         { last_detected_gesture := (templates.getD idx.toNat default).name
           last_detection_time := t })) := by
  unfold gesture_detection_process
  rw [if_neg (by decide : ¬(true = false))]
  simp only [hbm]
  rw [if_pos ⟨hidx, hscore⟩]
  constructor
  · intro h1 h2
    rw [if_pos ⟨h1, h2⟩]
  · intro h
    rw [if_neg ?_]
    intro hc
    rcases h with h | h
    · exact h hc.1
    · exact absurd hc.2 (not_lt.mpr h)

/-- The vocabulary restricted to template "B" only, and an all-zero
32-feature input — a perfect match with score 1 (witness data). -/
def b_only_templates : List gesture_template_t := [template_B]

/-- All-zero feature vector with 32 populated slots (witness data). -/
def flat_feature_vector : feature_vector_t :=
  { features := fun _ => 0, feature_count := 32, timestamp := 0 }

lemma best_match_b_only : best_match b_only_templates flat_feature_vector = (1, 0) := by
  have hr : List.range 32 =
      [0, 1, 2, 3, 4, 5, 6, 7, 8, 9, 10, 11, 12, 13, 14, 15, 16, 17, 18, 19, 20,
       21, 22, 23, 24, 25, 26, 27, 28, 29, 30, 31] := rfl
  simp only [best_match, b_only_templates, List.enum, best_match_aux, template_score,
    template_B, flat_feature_vector]
  norm_num [hr]

/-- C8 witness: with the "B"-only vocabulary and a perfectly matching input,
emitting at t = 0 from the initial state, re-presenting the identical input
at t = 100 ms yields no event and leaves the state untouched, and presenting
it again at t = 600 ms fires "B" again. -/
theorem gesture_debounce_witness :
    best_match b_only_templates flat_feature_vector = (1, 0) ∧
    gesture_detection_process true b_only_templates 0 flat_feature_vector zero_result
      init_gesture_state =
      (ESP_OK,
       { gesture_id := 0, gesture_name := "B", confidence := 1, is_dynamic := false,
         duration_ms := 0, timestamp := 0 },
       { last_detected_gesture := "B", last_detection_time := 0 }) ∧
    gesture_detection_process true b_only_templates 100 flat_feature_vector zero_result
      { last_detected_gesture := "B", last_detection_time := 0 } =
      (ESP_OK, zero_result, { last_detected_gesture := "B", last_detection_time := 0 }) ∧
    gesture_detection_process true b_only_templates 600 flat_feature_vector zero_result
      { last_detected_gesture := "B", last_detection_time := 0 } =
      (ESP_OK,
       { gesture_id := 0, gesture_name := "B", confidence := 1, is_dynamic := false,
         duration_ms := 0, timestamp := 0 },
       { last_detected_gesture := "B", last_detection_time := 600 }) :=
  ⟨best_match_b_only,
   (gesture_debounce b_only_templates 0 flat_feature_vector zero_result
      init_gesture_state 1 0 best_match_b_only (by decide)
      (by norm_num [CONFIDENCE_THRESHOLD])).2 (Or.inl (by decide)),
   (gesture_debounce b_only_templates 100 flat_feature_vector zero_result
      { last_detected_gesture := "B", last_detection_time := 0 } 1 0 best_match_b_only
      (by decide) (by norm_num [CONFIDENCE_THRESHOLD])).1 rfl (by decide),
   (gesture_debounce b_only_templates 600 flat_feature_vector zero_result
      { last_detected_gesture := "B", last_detection_time := 0 } 1 0 best_match_b_only
      (by decide) (by norm_num [CONFIDENCE_THRESHOLD])).2 (Or.inr (by decide))⟩

/-- C10: whenever `gesture_detection_process` returns success without
emitting a gesture — no template qualifies (negative best index), the best
score is below the confidence threshold, or the match is debounce-suppressed
— the output result is exactly the all-zero struct (confidence 0, empty
name) and the debounce state is unchanged, so a caller gating on
`confidence >= CONFIDENCE_THRESHOLD` (processing_task.c line 90) never
observes a stale or partial gesture. -/
theorem no_emission_zero_result (templates : List gesture_template_t) (t : Nat)
    (fv : feature_vector_t) (r0 : processing_result_t) (st : gesture_state_t)
    (h : (best_match templates fv).2 < 0 ∨
         (best_match templates fv).1 < CONFIDENCE_THRESHOLD ∨
         (st.last_detected_gesture =
            (templates.getD (best_match templates fv).2.toNat default).name ∧
          t - st.last_detection_time < GESTURE_DEBOUNCE_TIME_MS)) :
    gesture_detection_process true templates t fv r0 st = (ESP_OK, zero_result, st) ∧
    zero_result.confidence = 0 ∧ zero_result.gesture_name = "" ∧
    ¬(CONFIDENCE_THRESHOLD ≤ zero_result.confidence) := by
  refine ⟨?_, rfl, rfl, by norm_num [zero_result, CONFIDENCE_THRESHOLD]⟩
  unfold gesture_detection_process
  rw [if_neg (by decide : ¬(true = false))]
  by_cases hc : 0 ≤ (best_match templates fv).2 ∧
      CONFIDENCE_THRESHOLD ≤ (best_match templates fv).1
  · rw [if_pos hc]
    have hd : st.last_detected_gesture =
        (templates.getD (best_match templates fv).2.toNat default).name ∧
        t - st.last_detection_time < GESTURE_DEBOUNCE_TIME_MS := by
      rcases h with h | h | h
      · exact absurd hc.1 (not_le.mpr h)
      · exact absurd hc.2 (not_le.mpr h)
      · exact h
    rw [if_pos hd]
  · rw [if_neg hc]

lemma best_match_empty_input : best_match gesture_templates zero_feature_vector = (0, -1) := by
  simp only [best_match, gesture_templates, List.enum, best_match_aux, template_score,
    template_A, template_B, zero_template, zero_feature_vector]
  norm_num

/-- C10 witness: an empty feature vector against the initialized vocabulary —
every 32-feature template is skipped and the zero-initialized templates never
beat the initial best score, so no template qualifies and the zeroed result
comes back with the state untouched. -/
theorem no_emission_zero_result_witness :
    (best_match gesture_templates zero_feature_vector).2 < 0 ∧
    gesture_detection_process true gesture_templates 123 zero_feature_vector zero_result
      init_gesture_state = (ESP_OK, zero_result, init_gesture_state) ∧
    ¬(CONFIDENCE_THRESHOLD ≤ zero_result.confidence) :=
  ⟨by rw [best_match_empty_input]; decide,
   (no_emission_zero_result gesture_templates 123 zero_feature_vector zero_result
      init_gesture_state (Or.inl (by rw [best_match_empty_input]; decide))).1,
   (no_emission_zero_result gesture_templates 123 zero_feature_vector zero_result
      init_gesture_state (Or.inl (by rw [best_match_empty_input]; decide))).2.2.2⟩
